import Mathlib

/-!
# Verification of the lockc kernel-side decision engine

A shallow embedding of the eBPF decision engine of lockc
(`src/lockc/src/bpf/lockc.bpf.c`, `maps.h`, `map_structs.h`, and the
lineage-tracking program in `src/unnamed/part_000`), together with proofs
about the per-hook decision handlers (`syslog_audit`, `mount_audit`,
`setuid_audit`, `open_audit`), the path matcher (`check_paths`), the
policy resolver (`get_policy_level`) and the lineage tracker
(`handle_new_process`).

Modelling conventions:
* machine integers are `Nat` (pids, uids, container ids) and `Int`
  (verdicts / error codes);
* a kernel string is a `List UInt8` holding its bytes up to (not
  including) its terminating NUL; a fixed-width, NUL-terminated or
  zero-padded buffer is likewise a `List UInt8` and reading byte `i`
  of a buffer is `byteAt`, which yields `0` past the end of the list
  (the C buffers are NUL-terminated at exactly that position and no
  code path reads a buffer byte past the terminating NUL, so the
  zero-padded model is observationally equal to the C buffers);
* BPF hash maps are association lists (`List (key × value)`) looked up
  with `List.lookup`; the iteration of `bpf_for_each_map_elem` with an
  early-stopping callback is `List.any`;
* fallible kernel reads (`bpf_probe_read_kernel_str`,
  `bpf_get_current_comm`, `bpf_d_path`) are given to the handlers as
  explicit inputs: a `Bool` success flag, or an `Option` holding the
  string on success.
-/

namespace Lockc

/-! ## Constants (lockc.bpf.c, limits.h) -/

/-- `EPERM` as defined in `lockc.bpf.c`. -/
def EPERM : Int := 1

/-- `EFAULT` as defined in `lockc.bpf.c`. -/
def EFAULT : Int := 14

/-- `PATH_LEN`, the fixed width of a stored path (limits.h). -/
def PATH_LEN : Nat := 64

/-- `MOUNT_TYPE_LEN`, the size of the bounded buffer for the mount type
string (`lockc.bpf.c`). -/
def MOUNT_TYPE_LEN : Nat := 5

/-! ## Policy levels (policy.h, as used by lockc.bpf.c) -/

/-- `enum container_policy_level`: the three policy tiers plus the two
sentinel results of the policy resolver, exactly the five cases matched
by every handler in `lockc.bpf.c`. -/
inductive container_policy_level where
  | POLICY_LEVEL_LOOKUP_ERR
  | POLICY_LEVEL_NOT_FOUND
  | POLICY_LEVEL_RESTRICTED
  | POLICY_LEVEL_BASELINE
  | POLICY_LEVEL_PRIVILEGED
deriving DecidableEq, Repr

/-! ## Map value structs (map_structs.h) -/

/-- `struct container` (map_structs.h). -/
structure container where
  policy_level : container_policy_level
deriving DecidableEq, Repr

/-- `struct process` (map_structs.h). -/
structure process where
  container_id : Nat
deriving DecidableEq, Repr

/-- `struct accessed_path` (map_structs.h): a fixed 64-byte array,
modelled as the list of its bytes (reads past the end of the list yield
`0`, matching zero padding). -/
structure accessed_path where
  path : List UInt8
deriving DecidableEq, Repr

/-! ## Byte strings and string utilities -/

/-- Reading byte `i` of a NUL-terminated / zero-padded buffer. -/
def byteAt (s : List UInt8) (i : Nat) : UInt8 := s.getD i 0

/-- The bytes of a Lean string literal, for concrete test inputs. -/
def bytes (s : String) : List UInt8 := s.data.map (fun c => UInt8.ofNat c.toNat)

/-- Modelled from the spec: `strutils.h` is not present in the sources;
its `strlen(str, maxlen)` is specified (spec §4.4) as the stored
effective length, "up to first NUL, bounded by PATH_LEN": the number of
bytes before the first NUL, capped at `maxlen`. -/
def strlen : List UInt8 → Nat → Nat
  | _, 0 => 0
  | [], _ + 1 => 0
  | c :: rest, n + 1 => if c = 0 then 0 else strlen rest n + 1

/-- Modelled from the spec: `strutils.h` is not present in the sources;
its `strcmp(s1, s2, len)` compares up to `len` bytes and stops early at
a shared NUL, the spec (§4.3.4, §4.4) describing its use as
"byte-for-byte prefix match". `strcmpEq n s1 s2` is `strcmp(s1, s2, n) == 0`. -/
def strcmpEq : Nat → List UInt8 → List UInt8 → Bool
  | 0, _, _ => true
  | n + 1, s1, s2 =>
    let c1 := s1.headD 0
    let c2 := s2.headD 0
    if c1 = c2 then
      if c1 = 0 then true else strcmpEq n s1.tail s2.tail
    else false

/-- `bpf_probe_read_kernel_str(dst, n, src)` on success: the buffer holds
at most `n - 1` bytes of the source string, NUL-terminated (longer
strings are truncated). -/
def kstrRead (s : List UInt8) (n : Nat) : List UInt8 := s.take (n - 1)

/-! ## Maps (maps.h) -/

/-- The shared state: the BPF maps of `maps.h`. The path maps appear in
`lockc.bpf.c` under the shortened names used by the handlers
(`ap_mnt_restr` = `allowed_paths_mount_restricted`,
`ap_mnt_base` = `allowed_paths_mount_baseline`,
`ap_acc_restr` = `allowed_paths_access_restricted`,
`ap_acc_base` = `allowed_paths_access_baseline`,
`dp_acc_restr` = `denied_paths_access_restricted`,
`dp_acc_base` = `denied_paths_access_baseline`). -/
structure LockcState where
  processes : List (Nat × process)
  containers : List (Nat × container)
  ap_mnt_restr : List accessed_path
  ap_mnt_base : List accessed_path
  ap_acc_restr : List accessed_path
  ap_acc_base : List accessed_path
  dp_acc_restr : List accessed_path
  dp_acc_base : List accessed_path
deriving DecidableEq, Repr

/-! ## Policy resolver (get_policy_level, lockc.bpf.c) -/

/-- `get_policy_level(pid)`: pid → process → container → policy level,
with `POLICY_LEVEL_NOT_FOUND` when the pid has no `processes` row and
`POLICY_LEVEL_LOOKUP_ERR` when the process references a missing
container. -/
def get_policy_level (st : LockcState) (pid : Nat) : container_policy_level :=
  match st.processes.lookup pid with
  | none => .POLICY_LEVEL_NOT_FOUND
  | some p =>
    match st.containers.lookup p.container_id with
    | none => .POLICY_LEVEL_LOOKUP_ERR
    | some c => c.policy_level

/-! ## Path matcher (check_paths, lockc.bpf.c) -/

/-- The body of the `check_paths` callback for one map element: skip the
entry if its effective length is zero, otherwise report a match when the
first `strlen` bytes of the entry agree with the probe path. (The defensive
`allowed_path == NULL` skip of the C code cannot arise in the model:
`bpf_for_each_map_elem` only presents present elements.) -/
def check_paths (data_path : List UInt8) (allowed_path : accessed_path) : Bool :=
  let allowed_path_len := strlen allowed_path.path PATH_LEN
  if allowed_path_len < 1 then false
  else strcmpEq allowed_path_len allowed_path.path data_path

/-- `bpf_for_each_map_elem(&table, check_paths, &cb, 0)`: the callback
returns 1 (stop) exactly on the first match, so the iteration computes
whether any element matches. -/
def checkPaths (table : List accessed_path) (data_path : List UInt8) : Bool :=
  table.any (check_paths data_path)

/-! ## Decision handlers (lockc.bpf.c) -/

/-- `syslog_audit(type, ret_prev)`: restricted and baseline deny kernel
log access, privileged and unregistered pids allow, lookup errors fail
closed; a prior non-zero verdict is returned unchanged. The `type`
argument is unused by the policy and omitted from the model. -/
def syslog_audit (st : LockcState) (pid : Nat) (ret_prev : Int) : Int :=
  let ret : Int :=
    match get_policy_level st pid with
    | .POLICY_LEVEL_LOOKUP_ERR => -EPERM
    | .POLICY_LEVEL_NOT_FOUND => 0
    | .POLICY_LEVEL_RESTRICTED => -EPERM
    | .POLICY_LEVEL_BASELINE => -EPERM
    | .POLICY_LEVEL_PRIVILEGED => 0
  if ret_prev ≠ 0 then ret_prev else ret

/-- The bytes of `MOUNT_TYPE_BIND` ("bind"). -/
def type_bind : List UInt8 := bytes "bind"

/-- `mount_audit(dev_name, path, type, flags, data, ret_prev)`.
`dev_name` and `type_` are `none` for NULL pointers; `dev_read_ok` and
`type_read_ok` say whether `bpf_probe_read_kernel_str` succeeds on the
respective string. The destination path, flags and data are unused by
the policy and omitted. The mount policy (both switch statements of the
C function, with the common bind-type and dev_name reading in between)
computes `ret`, which is then folded with `ret_prev`. -/
def mount_audit (st : LockcState) (pid : Nat)
    (dev_name : Option (List UInt8)) (dev_read_ok : Bool)
    (type_ : Option (List UInt8)) (type_read_ok : Bool)
    (ret_prev : Int) : Int :=
  let policy_level := get_policy_level st pid
  let ret : Int :=
    match policy_level with
    | .POLICY_LEVEL_LOOKUP_ERR => -EPERM
    | .POLICY_LEVEL_NOT_FOUND => 0
    | .POLICY_LEVEL_PRIVILEGED => 0
    | _ =>
      match type_ with
      | none => 0
      | some ty =>
        if type_read_ok = false then -EFAULT
        else
          let type_safe := kstrRead ty MOUNT_TYPE_LEN
          if strcmpEq MOUNT_TYPE_LEN type_safe type_bind = false then 0
          else
            match dev_name with
            | none => -EFAULT
            | some dn =>
              if dev_read_ok = false then -EFAULT
              else
                let dev_name_safe := kstrRead dn PATH_LEN
                match policy_level with
                | .POLICY_LEVEL_RESTRICTED =>
                  if checkPaths st.ap_mnt_restr dev_name_safe then 0 else -EPERM
                | _ =>
                  if checkPaths st.ap_mnt_base dev_name_safe then 0 else -EPERM
  if ret_prev ≠ 0 then ret_prev else ret

/-- `setuid_audit(new, old, flags, ret_prev)`: `comm_read_ok` says
whether `bpf_get_current_comm` succeeds; on failure the C function
returns `-EFAULT` directly, before the fold with `ret_prev`. Otherwise:
restricted and baseline deny a transition to uid 0 from a uid ≥ 1000,
privileged and unregistered pids allow, lookup errors fail closed, and
the result is folded with `ret_prev`. -/
def setuid_audit (st : LockcState) (pid : Nat) (comm_read_ok : Bool)
    (uid_new uid_old : Nat) (ret_prev : Int) : Int :=
  if comm_read_ok = false then -EFAULT
  else
    let ret : Int :=
      match get_policy_level st pid with
      | .POLICY_LEVEL_LOOKUP_ERR => -EPERM
      | .POLICY_LEVEL_NOT_FOUND => 0
      | .POLICY_LEVEL_PRIVILEGED => 0
      | _ => if uid_new = 0 ∧ uid_old ≥ 1000 then -EPERM else 0
    if ret_prev ≠ 0 then ret_prev else ret

/-- The bytes of the literal `"/\0"` compared against in `open_audit`;
in the zero-padded buffer model its terminating NUL is implicit. -/
def slash_lit : List UInt8 := bytes "/"

/-- `open_audit(file, ret_prev)`: `d_path_res` is the absolute path
written by `bpf_d_path` into the zero-initialised 64-byte buffer, or
`none` when `bpf_d_path` fails (in which case the open is allowed).
Path `/` itself is allowed (compared over 2 bytes so that `/` is not a
prefix of everything). Then the second switch of the C function runs:
the restricted arm iterates `ap_acc_restr` for the deny check and
`ap_acc_restr` again for the allow check (as written in the source),
the baseline arm iterates `dp_acc_base` then `ap_acc_base`; an
unmatched path is denied. The result is folded with `ret_prev`. -/
def open_audit (st : LockcState) (pid : Nat)
    (d_path_res : Option (List UInt8)) (ret_prev : Int) : Int :=
  let policy_level := get_policy_level st pid
  let ret : Int :=
    match policy_level with
    | .POLICY_LEVEL_LOOKUP_ERR => -EPERM
    | .POLICY_LEVEL_NOT_FOUND => 0
    | .POLICY_LEVEL_PRIVILEGED => 0
    | _ =>
      match d_path_res with
      | none => 0
      | some d_path_buf =>
        if strcmpEq 2 d_path_buf slash_lit then 0
        else
          match policy_level with
          | .POLICY_LEVEL_RESTRICTED =>
            if checkPaths st.ap_acc_restr d_path_buf then -EPERM
            else if checkPaths st.ap_acc_restr d_path_buf then 0
            else -EPERM
          | _ =>
            if checkPaths st.dp_acc_base d_path_buf then -EPERM
            else if checkPaths st.ap_acc_base d_path_buf then 0
            else -EPERM
  if ret_prev ≠ 0 then ret_prev else ret

/-! ## Lineage tracker (handle_new_process, src/unnamed/part_000) -/

/-- `handle_new_process(parent, child)`: returns the C return value and
the updated `processes` map (the only map the function writes; the
`containers` map is read-only here and all other maps are untouched).
`insert_res` is the return value of `bpf_map_update_elem`; a negative
value means the insert failed and the map is unchanged. The
commented-out unwrapped-runtime branch of the source is dead code and
is not modelled. -/
def handle_new_process (processes : List (Nat × process))
    (containers : List (Nat × container)) (ppid pid : Nat)
    (insert_res : Int) : Int × List (Nat × process) :=
  match processes.lookup ppid with
  | none => (0, processes)
  | some parent_lookup =>
    match processes.lookup pid with
    | some _ => (0, processes)
    | none =>
      match containers.lookup parent_lookup.container_id with
      | none => (-EPERM, processes)
      | some _ =>
        if insert_res < 0 then (insert_res, processes)
        else (0, (pid, ⟨parent_lookup.container_id⟩) :: processes)

/-! ## Spec-side prefix matching -/

/-- The prefix law of spec §4.3.4/§4.4: some entry of the table has
positive effective length and its first `strlen` bytes equal the first
`strlen` bytes of the probe. -/
def prefixMatched (table : List accessed_path) (p : List UInt8) : Prop :=
  ∃ e ∈ table, 1 ≤ strlen e.path PATH_LEN ∧
    ∀ i < strlen e.path PATH_LEN, byteAt e.path i = byteAt p i

instance (table : List accessed_path) (p : List UInt8) :
    Decidable (prefixMatched table p) := by
  unfold prefixMatched
  infer_instance

/-! ## Lemmas about the string utilities and the path matcher -/

lemma byteAt_tail (s : List UInt8) (i : Nat) :
    byteAt s.tail i = byteAt s (i + 1) := by
  cases s <;> simp [byteAt]

lemma byteAt_zero (s : List UInt8) : s.headD 0 = byteAt s 0 := by
  cases s <;> simp [byteAt]

/-- Every byte strictly before the effective length is non-NUL. -/
lemma strlen_byte_ne (s : List UInt8) : ∀ (n i : Nat),
    i < strlen s n → byteAt s i ≠ 0 := by
  induction s with
  | nil =>
    intro n i h
    cases n <;> simp [strlen] at h
  | cons c rest ih =>
    intro n i h
    cases n with
    | zero => simp [strlen] at h
    | succ m =>
      simp only [strlen] at h
      by_cases hc : c = 0
      · simp [hc] at h
      · rw [if_neg hc] at h
        cases i with
        | zero => simpa [byteAt] using hc
        | succ j =>
          have hj : j < strlen rest m := by omega
          simpa [byteAt] using ih m j hj

/-- When the first string has no NUL among its first `n` bytes,
`strcmpEq n` is exactly bytewise equality on the first `n` bytes. -/
lemma strcmpEq_iff : ∀ (n : Nat) (s1 s2 : List UInt8),
    (∀ i < n, byteAt s1 i ≠ 0) →
    (strcmpEq n s1 s2 = true ↔ ∀ i < n, byteAt s1 i = byteAt s2 i) := by
  intro n
  induction n with
  | zero =>
    intro s1 s2 _
    simp [strcmpEq]
  | succ m ih =>
    intro s1 s2 hnz
    have h0 : byteAt s1 0 ≠ 0 := hnz 0 (Nat.succ_pos m)
    have h0' : ¬s1.headD 0 = 0 := by rw [byteAt_zero]; exact h0
    by_cases hc : s1.headD 0 = s2.headD 0
    · rw [strcmpEq, if_pos hc, if_neg h0']
      have hnz' : ∀ i < m, byteAt s1.tail i ≠ 0 := by
        intro i hi
        rw [byteAt_tail]
        exact hnz (i + 1) (by omega)
      rw [ih s1.tail s2.tail hnz']
      constructor
      · intro h i hi
        cases i with
        | zero =>
          rw [← byteAt_zero, ← byteAt_zero]
          exact hc
        | succ j =>
          rw [← byteAt_tail, ← byteAt_tail]
          exact h j (by omega)
      · intro h i hi
        rw [byteAt_tail, byteAt_tail]
        exact h (i + 1) (by omega)
    · rw [strcmpEq, if_neg hc]
      simp only [Bool.false_eq_true, false_iff]
      intro h
      exact hc (by rw [byteAt_zero, byteAt_zero]; exact h 0 (Nat.succ_pos m))

/-- One element of the callback iteration matches exactly when the
stored entry is a nonempty byte-prefix of the probe. -/
lemma check_paths_iff (p : List UInt8) (e : accessed_path) :
    check_paths p e = true ↔
      1 ≤ strlen e.path PATH_LEN ∧
        ∀ i < strlen e.path PATH_LEN, byteAt e.path i = byteAt p i := by
  simp only [check_paths]
  by_cases h : strlen e.path PATH_LEN < 1
  · rw [if_pos h]
    simp only [Bool.false_eq_true, false_iff]
    intro hh
    omega
  · rw [if_neg h]
    rw [strcmpEq_iff _ _ _ (fun i hi => strlen_byte_ne e.path PATH_LEN i hi)]
    exact ⟨fun hh => ⟨by omega, hh⟩, fun hh => hh.2⟩

/-- The path matcher decides exactly the prefix law of the spec. -/
lemma checkPaths_iff (table : List accessed_path) (p : List UInt8) :
    checkPaths table p = true ↔ prefixMatched table p := by
  simp only [checkPaths, prefixMatched, List.any_eq_true, check_paths_iff]

/-- The complement form, for rewriting the `else` branches. -/
lemma checkPaths_eq_false (table : List accessed_path) (p : List UInt8)
    (h : ¬prefixMatched table p) : checkPaths table p = false := by
  rw [Bool.eq_false_iff]
  intro hh
  exact h ((checkPaths_iff table p).mp hh)

/-! ## Concrete states used by witnesses and counterexamples -/

/-- A state with one restricted container 3 and its process 300. -/
def restrSt : LockcState :=
  ⟨[(300, ⟨3⟩)], [(3, ⟨.POLICY_LEVEL_RESTRICTED⟩)], [], [], [], [], [], []⟩

/-- A state with one privileged container 2 and its process 200. -/
def privSt : LockcState :=
  ⟨[(200, ⟨2⟩)], [(2, ⟨.POLICY_LEVEL_PRIVILEGED⟩)], [], [], [], [], [], []⟩

/-- An inconsistent state: process 500 references container 5, which has
no `containers` row, so the resolver reports a lookup error. -/
def lookupErrSt : LockcState :=
  ⟨[(500, ⟨5⟩)], [], [], [], [], [], [], []⟩

/-- Restricted process 300 with `/var/lib/containers` on the restricted
mount allowlist. -/
def mntSt : LockcState :=
  ⟨[(300, ⟨3⟩)], [(3, ⟨.POLICY_LEVEL_RESTRICTED⟩)],
   [⟨bytes "/var/lib/containers"⟩], [], [], [], [], []⟩

/-- Restricted process 300 with an empty restricted access deny list and
`/tmp` on the restricted access allowlist. -/
def c1St : LockcState :=
  ⟨[(300, ⟨3⟩)], [(3, ⟨.POLICY_LEVEL_RESTRICTED⟩)],
   [], [], [⟨bytes "/tmp"⟩], [], [], []⟩

/-! ## Claims -/

/-- C6: for every paths table and probe, the path matcher returns true
iff some entry with effective length (bytes up to the first NUL, bounded
by PATH_LEN) at least 1 has its first `strlen` bytes equal to the first
`strlen` bytes of the probe; and an empty (all-NUL) entry never matches
any probe. -/
theorem C6_path_matcher_prefix_law :
    (∀ (table : List accessed_path) (p : List UInt8),
      checkPaths table p = true ↔ prefixMatched table p) ∧
    (∀ (p : List UInt8) (e : accessed_path),
      strlen e.path PATH_LEN = 0 → checkPaths [e] p = false) := by
  constructor
  · exact checkPaths_iff
  · intro p e h
    simp [checkPaths, check_paths, h]

/-- C6 witness: an all-NUL entry does not match the probe `/etc`. -/
theorem C6_path_matcher_prefix_law_witness :
    checkPaths [⟨List.replicate 64 0⟩] (bytes "/etc") = false :=
  C6_path_matcher_prefix_law.2 (bytes "/etc") ⟨List.replicate 64 0⟩ (by decide)

/-- C7: the lineage tracker is idempotent: whenever the child pid
already has a `processes` row, `handle_new_process` returns 0 and
leaves the `processes` map unchanged (it writes no other map). -/
theorem C7_lineage_idempotent : ∀ (procs : List (Nat × process))
    (conts : List (Nat × container)) (ppid pid : Nat) (ins : Int),
    (procs.lookup pid).isSome →
    handle_new_process procs conts ppid pid ins = (0, procs) := by
  intro procs conts ppid pid ins h
  simp only [handle_new_process]
  cases hp : procs.lookup ppid with
  | none => rfl
  | some parent =>
    cases hc : procs.lookup pid with
    | none => rw [hc] at h; simp at h
    | some _ => simp [hc]

/-- C7 witness: replaying the registration of child 101 under parent 100
returns 0 and leaves the map unchanged. -/
theorem C7_lineage_idempotent_witness :
    handle_new_process [(101, ⟨1⟩), (100, ⟨1⟩)]
      [(1, ⟨.POLICY_LEVEL_BASELINE⟩)] 100 101 0 =
      (0, [(101, ⟨1⟩), (100, ⟨1⟩)]) :=
  C7_lineage_idempotent [(101, ⟨1⟩), (100, ⟨1⟩)]
    [(1, ⟨.POLICY_LEVEL_BASELINE⟩)] 100 101 0 (by decide)

/-- C8 counterexample: parent 1 is registered (container 7), container 7
has no row, yet the call returns 0 — not the inconsistent-state error —
because the child-exists check precedes the container lookup. -/
theorem C8_inconsistent_counterexample :
    (handle_new_process [(1, ⟨7⟩), (2, ⟨9⟩)] [] 1 2 0).1 = 0 ∧
      (0 : Int) ≠ -EPERM := by decide

/-- C8 amended: when the parent is registered, the child is NOT yet
registered, and the container row of the parent is missing,
`handle_new_process` returns the inconsistent-state error `-EPERM` and
does not insert a row for the child. -/
theorem C8_inconsistent_amended : ∀ (procs : List (Nat × process))
    (conts : List (Nat × container)) (ppid pid : Nat) (ins : Int)
    (p : process),
    procs.lookup ppid = some p →
    procs.lookup pid = none →
    conts.lookup p.container_id = none →
    handle_new_process procs conts ppid pid ins = (-EPERM, procs) := by
  intro procs conts ppid pid ins p hp hc hcont
  simp [handle_new_process, hp, hc, hcont]

/-- C8 witness: parent 1 registered under missing container 7, child 2
unregistered: the call returns `-EPERM` and inserts nothing. -/
theorem C8_inconsistent_amended_witness :
    handle_new_process [(1, ⟨7⟩)] [] 1 2 0 = (-EPERM, [(1, ⟨7⟩)]) :=
  C8_inconsistent_amended [(1, ⟨7⟩)] [] 1 2 0 ⟨7⟩ (by decide) (by decide)
    (by decide)

/-- C10: when reading the current task command name fails, the setuid
handler returns `-EFAULT` for every state (hence every tier, registered
or not), every pair of uids and every previous verdict — the early
return precedes both the tier dispatch and the previous-verdict fold. -/
theorem C10_setuid_comm_fault : ∀ (st : LockcState) (pid un uo : Nat)
    (prev : Int),
    setuid_audit st pid false un uo prev = -EFAULT := by
  intro st pid un uo prev
  simp [setuid_audit]

/-- C2 counterexample: a setuid call with a failing command-name read
and previous verdict 5 returns `-EFAULT`, not 5 — the error return
bypasses the previous-verdict fold. -/
theorem C2_stacking_counterexample :
    setuid_audit ⟨[], [], [], [], [], [], [], []⟩ 1 false 0 1000 5 =
        -EFAULT ∧
      -EFAULT ≠ (5 : Int) := by decide

/-- C2 amended: for every hook and every input — except a setuid call
whose command-name read fails, which returns `-EFAULT` before the fold —
a non-zero previous verdict is returned unchanged, and with previous
verdict zero the handler returns the verdict it computes itself. -/
theorem C2_stacking_amended :
    (∀ (st : LockcState) (pid : Nat) (prev : Int),
      syslog_audit st pid prev =
        if prev ≠ 0 then prev else syslog_audit st pid 0) ∧
    (∀ (st : LockcState) (pid : Nat) (dn : Option (List UInt8))
        (dok : Bool) (ty : Option (List UInt8)) (tok : Bool) (prev : Int),
      mount_audit st pid dn dok ty tok prev =
        if prev ≠ 0 then prev else mount_audit st pid dn dok ty tok 0) ∧
    (∀ (st : LockcState) (pid : Nat) (dp : Option (List UInt8))
        (prev : Int),
      open_audit st pid dp prev =
        if prev ≠ 0 then prev else open_audit st pid dp 0) ∧
    (∀ (st : LockcState) (pid un uo : Nat) (prev : Int),
      setuid_audit st pid true un uo prev =
        if prev ≠ 0 then prev else setuid_audit st pid true un uo 0) := by
  refine ⟨?_, ?_, ?_, ?_⟩
  · intro st pid prev
    by_cases h : prev = 0 <;> simp [syslog_audit, h]
  · intro st pid dn dok ty tok prev
    by_cases h : prev = 0 <;> simp [mount_audit, h]
  · intro st pid dp prev
    by_cases h : prev = 0 <;> simp [open_audit, h]
  · intro st pid un uo prev
    by_cases h : prev = 0 <;> simp [setuid_audit, h]

/-- C3 counterexample: a privileged pid with previous verdict 0 receives
`-EFAULT`, not 0, from the setuid handler when the command-name read
fails. -/
theorem C3_host_priv_counterexample :
    setuid_audit privSt 200 false 1001 1000 0 ≠ 0 := by decide

/-- C3 amended: with previous verdict 0, a pid that resolves to
PRIVILEGED and a pid with no `processes` row both receive 0 from all
four handlers, for every content of every path table — provided that,
for the setuid hook, the command-name read succeeds. -/
theorem C3_host_priv_amended : ∀ (st : LockcState) (pid : Nat),
    (get_policy_level st pid = .POLICY_LEVEL_PRIVILEGED ∨
      get_policy_level st pid = .POLICY_LEVEL_NOT_FOUND) →
    syslog_audit st pid 0 = 0 ∧
    (∀ dn dok ty tok, mount_audit st pid dn dok ty tok 0 = 0) ∧
    (∀ dp, open_audit st pid dp 0 = 0) ∧
    (∀ un uo, setuid_audit st pid true un uo 0 = 0) := by
  intro st pid h
  rcases h with h | h <;>
    exact ⟨by simp [syslog_audit, h],
      fun dn dok ty tok => by simp [mount_audit, h],
      fun dp => by simp [open_audit, h],
      fun un uo => by simp [setuid_audit, h]⟩

/-- C3 witness: privileged pid 200 is allowed by the syslog handler and
by a mount of `/etc/shadow` with empty path tables. -/
theorem C3_host_priv_amended_witness :
    syslog_audit privSt 200 0 = 0 ∧
      mount_audit privSt 200 (some (bytes "/etc/shadow")) true
        (some type_bind) true 0 = 0 :=
  ⟨(C3_host_priv_amended privSt 200 (Or.inl (by decide))).1,
   (C3_host_priv_amended privSt 200 (Or.inl (by decide))).2.1
     (some (bytes "/etc/shadow")) true (some type_bind) true⟩

/-- C9 counterexample: pid 500 resolves to a lookup error (its process
row references a missing container); with uids that do not meet the
deny condition the claim demands 0, but the handler fails closed with
`-EPERM`. -/
theorem C9_setuid_counterexample :
    setuid_audit lookupErrSt 500 true 5 5 0 ≠ 0 := by decide

/-- C9 amended: with previous verdict 0 and a successful command-name
read: a RESTRICTED or BASELINE pid is denied `-EPERM` exactly when the
new uid is 0 and the old uid is at least 1000 and allowed 0 otherwise;
a PRIVILEGED or unregistered pid is always allowed; a pid in the
inconsistent lookup-error state fails closed with `-EPERM`. -/
theorem C9_setuid_amended : ∀ (st : LockcState) (pid un uo : Nat),
    ((get_policy_level st pid = .POLICY_LEVEL_RESTRICTED ∨
        get_policy_level st pid = .POLICY_LEVEL_BASELINE) →
      setuid_audit st pid true un uo 0 =
        if un = 0 ∧ uo ≥ 1000 then -EPERM else 0) ∧
    ((get_policy_level st pid = .POLICY_LEVEL_PRIVILEGED ∨
        get_policy_level st pid = .POLICY_LEVEL_NOT_FOUND) →
      setuid_audit st pid true un uo 0 = 0) ∧
    (get_policy_level st pid = .POLICY_LEVEL_LOOKUP_ERR →
      setuid_audit st pid true un uo 0 = -EPERM) := by
  intro st pid un uo
  refine ⟨?_, ?_, ?_⟩
  · rintro (h | h) <;>
      by_cases hu : un = 0 ∧ uo ≥ 1000 <;> simp [setuid_audit, h, hu]
  · rintro (h | h) <;> simp [setuid_audit, h]
  · intro h
    simp [setuid_audit, h]

/-- C9 witness: restricted pid 300 transitioning from uid 1000 to uid 0
is denied. -/
theorem C9_setuid_amended_witness :
    setuid_audit restrSt 300 true 0 1000 0 = -EPERM := by
  have h := (C9_setuid_amended restrSt 300 0 1000).1 (Or.inl (by decide))
  rw [h]
  decide

/-- The truncated read of the literal type string "bind" compares equal
to `MOUNT_TYPE_BIND`. -/
lemma bind_self_cmp :
    strcmpEq MOUNT_TYPE_LEN (kstrRead type_bind MOUNT_TYPE_LEN) type_bind =
      true := by decide

/-- C4: for a RESTRICTED- or BASELINE-tier process mounting with type
exactly "bind" and a readable non-NULL `dev_name` (previous verdict 0),
the verdict is 0 when some entry of the tier mount allowlist
(`ap_mnt_restr` = `allowed_paths_mount_restricted`, resp. `ap_mnt_base`
= `allowed_paths_mount_baseline`) is a prefix of the read `dev_name`,
and `-EPERM` otherwise. -/
theorem C4_mount_bind_allowlist : ∀ (st : LockcState) (pid : Nat)
    (dn : List UInt8),
    (get_policy_level st pid = .POLICY_LEVEL_RESTRICTED →
      mount_audit st pid (some dn) true (some type_bind) true 0 =
        if prefixMatched st.ap_mnt_restr (kstrRead dn PATH_LEN) then 0
        else -EPERM) ∧
    (get_policy_level st pid = .POLICY_LEVEL_BASELINE →
      mount_audit st pid (some dn) true (some type_bind) true 0 =
        if prefixMatched st.ap_mnt_base (kstrRead dn PATH_LEN) then 0
        else -EPERM) := by
  intro st pid dn
  constructor
  · intro h
    by_cases hm : prefixMatched st.ap_mnt_restr (kstrRead dn PATH_LEN)
    · have hcp := (checkPaths_iff st.ap_mnt_restr (kstrRead dn PATH_LEN)).mpr hm
      simp [mount_audit, h, bind_self_cmp, hcp, hm]
    · have hcp := checkPaths_eq_false st.ap_mnt_restr (kstrRead dn PATH_LEN) hm
      simp [mount_audit, h, bind_self_cmp, hcp, hm]
  · intro h
    by_cases hm : prefixMatched st.ap_mnt_base (kstrRead dn PATH_LEN)
    · have hcp := (checkPaths_iff st.ap_mnt_base (kstrRead dn PATH_LEN)).mpr hm
      simp [mount_audit, h, bind_self_cmp, hcp, hm]
    · have hcp := checkPaths_eq_false st.ap_mnt_base (kstrRead dn PATH_LEN) hm
      simp [mount_audit, h, bind_self_cmp, hcp, hm]

/-- C4 witness: restricted pid 300 bind-mounting from
`/var/lib/containers/foo` is allowed by the allowlist entry
`/var/lib/containers`, and from `/root/secret` is denied. -/
theorem C4_mount_bind_allowlist_witness :
    mount_audit mntSt 300 (some (bytes "/var/lib/containers/foo")) true
        (some type_bind) true 0 = 0 ∧
      mount_audit mntSt 300 (some (bytes "/root/secret")) true
        (some type_bind) true 0 = -EPERM := by
  constructor
  · have h := (C4_mount_bind_allowlist mntSt 300
      (bytes "/var/lib/containers/foo")).1 (by decide)
    rw [h]
    decide
  · have h := (C4_mount_bind_allowlist mntSt 300
      (bytes "/root/secret")).1 (by decide)
    rw [h]
    decide

/-- C5 counterexample: restricted pid 300 mounting with type "bindfs"
(truncated by the 5-byte bounded read to "bind") is policed as a bind
mount and denied by the empty allowlist — the claim demands 0. -/
theorem C5_mount_type_counterexample :
    mount_audit restrSt 300 (some (bytes "/src")) true
        (some (bytes "bindfs")) true 0 = -EPERM ∧
      -EPERM ≠ (0 : Int) := by decide

/-- C5 amended: for a RESTRICTED- or BASELINE-tier process (previous
verdict 0): a NULL type pointer yields 0, and a readable type string
whose 5-byte bounded read (at most 4 bytes plus NUL) differs from
"bind" yields 0 without consulting any path table (the result is 0 for
every state with the given tier, whatever the path tables hold). -/
theorem C5_mount_type_amended : ∀ (st : LockcState) (pid : Nat),
    (get_policy_level st pid = .POLICY_LEVEL_RESTRICTED ∨
      get_policy_level st pid = .POLICY_LEVEL_BASELINE) →
    (∀ dn dok tok, mount_audit st pid dn dok none tok 0 = 0) ∧
    (∀ ty, strcmpEq MOUNT_TYPE_LEN (kstrRead ty MOUNT_TYPE_LEN) type_bind =
        false →
      ∀ dn dok, mount_audit st pid dn dok (some ty) true 0 = 0) := by
  intro st pid h
  rcases h with h | h <;>
    exact ⟨fun dn dok tok => by simp [mount_audit, h],
      fun ty hty dn dok => by simp [mount_audit, h, hty]⟩

/-- C5 witness: restricted pid 300 mounting with a NULL type, and with
type "tmpfs", is allowed in both cases. -/
theorem C5_mount_type_amended_witness :
    mount_audit restrSt 300 (some (bytes "/x")) true none true 0 = 0 ∧
      mount_audit restrSt 300 (some (bytes "/x")) true
        (some (bytes "tmpfs")) true 0 = 0 :=
  ⟨(C5_mount_type_amended restrSt 300 (Or.inl (by decide))).1
      (some (bytes "/x")) true true,
   (C5_mount_type_amended restrSt 300 (Or.inl (by decide))).2
      (bytes "tmpfs") (by decide) (some (bytes "/x")) true⟩

/-- C1: evaluation of the open handler at the failing input: restricted
pid 300, opened path `/tmp/x`, the restricted deny list
(`dp_acc_restr` = `denied_paths_access_restricted`) empty and the
restricted allow list (`ap_acc_restr` =
`allowed_paths_access_restricted`) holding `/tmp`. The claim demands 0
(no deny-list entry matches and an allow-list entry matches), but the
handler returns `-EPERM`: the restricted arm of the second switch runs
`check_paths` over `ap_acc_restr` for the deny check — the entry `/tmp`
matches there and denies — and the deny list is never consulted. -/
theorem C1_open_restricted_code_eval :
    c1St.dp_acc_restr = [] ∧
      checkPaths c1St.ap_acc_restr (bytes "/tmp/x") = true ∧
      open_audit c1St 300 (some (bytes "/tmp/x")) 0 = -EPERM := by decide

end Lockc
